import Mathlib

/-!
Shallow embedding of `src/powerconsumption.py` (pandas analytics script).

Modelling conventions:
* Float values are modelled as rationals (`ℚ`).
* pandas `Series.std` (sample standard deviation, divisor n−1) is the
  non-negative real square root of the sample variance; since `ℚ` has no
  square root, a std value `s` is characterised by `0 ≤ s ∧ s ^ 2 = sampleVar`.
* Float `NaN` (e.g. a rolling window with insufficient history, a division
  `0/0`) is modelled as `none : Option ℚ`.
* The script raises no exceptions in its analytics functions; they are total.
-/

namespace PowerConsumption

/-- One row of the frame produced by `load_and_preprocess`: the calendar
features derived from the timestamp plus the three zone readings. -/
structure Row where
  hour : Nat
  weekday : Nat
  zone1 : ℚ
  zone2 : ℚ
  zone3 : ℚ
deriving DecidableEq, Repr

/-- `df['Total_Load'] = Zone1 + Zone2 + Zone3` (line 18 of the source). -/
def total_load (r : Row) : ℚ := r.zone1 + r.zone2 + r.zone3

/-- `df['Peak_Type'] = np.where(df['Hour'].between(18, 22), 'Peak', 'Off-Peak')`
(line 24): pandas `between` is inclusive on both ends. -/
def peak_type (h : Nat) : String := if 18 ≤ h ∧ h ≤ 22 then "Peak" else "Off-Peak"

/-- Arithmetic mean of a list of rationals, `Series.mean`. -/
def meanQ (xs : List ℚ) : ℚ := xs.sum / (xs.length : ℚ)

/-- Sample variance with divisor n−1, the square of pandas `Series.std`. -/
def sampleVar (xs : List ℚ) : ℚ :=
  (xs.map (fun x => (x - meanQ xs) ^ 2)).sum / ((xs.length : ℚ) - 1)

/-- Characterisation of pandas `Series.std xs = s`: the std is the
non-negative square root of the sample variance (divisor n−1). -/
def is_sample_std (xs : List ℚ) (s : ℚ) : Prop := 0 ≤ s ∧ s ^ 2 = sampleVar xs

instance (xs : List ℚ) (s : ℚ) : Decidable (is_sample_std xs s) :=
  inferInstanceAs (Decidable (_ ∧ _))

/-- The `Total_Load` column of a frame. -/
def loads (df : List Row) : List ℚ := df.map total_load

/-- `mean_load = df['Total_Load'].mean()` (line 42). -/
def mean_load (df : List Row) : ℚ := meanQ (loads df)

/-- Per-row test `Total_Load > mean + 2 * std` (line 45). -/
def wastage_flag (m s t : ℚ) : Bool := decide (m + 2 * s < t)

/-- `wastage_detection(df)` (lines 41–48): computes mean and std of
`Total_Load`, flags each row with `Total_Load > mean + 2*std`, prints the
flagged count and returns the `(mean, std)` pair.  The std argument `s`
stands for `df['Total_Load'].std()`, characterised by `is_sample_std`.
Result: (per-row flags, flagged count, (mean, std)). -/
def wastage_detection (df : List Row) (s : ℚ) : List Bool × Nat × ℚ × ℚ :=
  let m := mean_load df
  let flags := df.map (fun r => wastage_flag m s (total_load r))
  (flags, flags.count true, m, s)

/-- `Series.rolling(k).mean()` (lines 55–56): trailing window of `k` values
inclusive of the current one; entries with fewer than `k` values of history
are NaN (`none`), since `min_periods` defaults to the window size. -/
def rollingMean (k : Nat) (xs : List ℚ) : List (Option ℚ) :=
  (List.range xs.length).map (fun i =>
    if k ≤ i + 1 then some ((((xs.drop (i + 1 - k)).take k).sum) / (k : ℚ)) else none)

/-- `rolling_trend(df)` (lines 54–56): the `Rolling_7` and `Rolling_30`
columns, trailing simple moving averages of `Total_Load`. -/
def rolling_trend (df : List Row) : List (Option ℚ) × List (Option ℚ) :=
  (rollingMean 7 (loads df), rollingMean 30 (loads df))

/-- The distinct hours present in the frame, ascending — the group keys of
`df.groupby('Hour')` (pandas sorts group keys).  Hours come from
`DateTime.dt.hour`, so they lie in `[0, 23]`. -/
def hours_of (df : List Row) : List Nat :=
  (List.range 24).filter (fun h => df.any (fun r => r.hour == h))

/-- Mean `Total_Load` over the rows with the given hour. -/
def hourly_mean (df : List Row) (h : Nat) : ℚ :=
  meanQ (loads (df.filter (fun r => r.hour == h)))

/-- `hourly = df.groupby('Hour')['Total_Load'].mean()` (line 87): the hourly
profile as an (hour, mean) list sorted by hour ascending. -/
def hourly_profile (df : List Row) : List (Nat × ℚ) :=
  (hours_of df).map (fun h => (h, hourly_mean df h))

/-- `peak_load_risk(df)` (lines 86–101): threshold = mean + std of the hourly
means (`s` stands for `hourly.std()`, characterised by `is_sample_std`), and
the result is `hourly[hourly > threshold]`, which keeps ascending hour order. -/
def peak_load_risk (df : List Row) (s : ℚ) : List (Nat × ℚ) :=
  let threshold := meanQ ((hourly_profile df).map Prod.snd) + s
  (hourly_profile df).filter (fun p => decide (threshold < p.2))

/-- `df['PowerConsumption_Zone1'].mean()` (line 110). -/
def zone_avg1 (df : List Row) : ℚ := meanQ (df.map Row.zone1)

/-- `df['PowerConsumption_Zone2'].mean()` (line 111). -/
def zone_avg2 (df : List Row) : ℚ := meanQ (df.map Row.zone2)

/-- `df['PowerConsumption_Zone3'].mean()` (line 112). -/
def zone_avg3 (df : List Row) : ℚ := meanQ (df.map Row.zone3)

/-- `max_load = max(zone_avg.values())` (line 115). -/
def max_zone (df : List Row) : ℚ := max (zone_avg1 df) (max (zone_avg2 df) (zone_avg3 df))

/-- Python 3 `round(q)`: round half to even (banker's rounding). -/
def roundHalfToEven (q : ℚ) : ℤ :=
  let n := ⌊q⌋
  if q - n < 1 / 2 then n
  else if 1 / 2 < q - n then n + 1
  else if n % 2 = 0 then n else n + 1

/-- Python `round(q, 2)`: round to 2 decimal places, half to even. -/
def round2 (q : ℚ) : ℚ := ((roundHalfToEven (q * 100) : ℚ)) / 100

/-- `zone_efficiency(df)` (lines 108–134): per-zone score
`round(100 - (v / max_load) * 40, 2)` in fixed order Zone1, Zone2, Zone3.
When `max_load = 0` (all readings zero) the numpy division `0.0/0.0` yields
NaN — no exception — so the score is `none`. -/
def zone_efficiency (df : List Row) : List (String × Option ℚ) :=
  let maxl := max_zone df
  let score := fun (v : ℚ) =>
    if maxl = 0 then none else some (round2 (100 - v / maxl * 40))
  [("Zone1", score (zone_avg1 df)), ("Zone2", score (zone_avg2 df)),
   ("Zone3", score (zone_avg3 df))]

/-- `df['Z_Score'] = (Total_Load - mean) / std` (line 142).  When `std = 0`
the numpy division yields ±inf or NaN, none of which is a rational: `none`. -/
def z_score (m s t : ℚ) : Option ℚ :=
  if s = 0 then none else some ((t - m) / s)

/-- `df['Stat_Anomaly'] = df['Z_Score'].abs() > 2.5` (line 143).  When
`std = 0` the float z-score is ±inf for `t ≠ m` (so the comparison is true)
and NaN for `t = m` (comparison false). -/
def stat_flag (m s t : ℚ) : Bool :=
  if s = 0 then decide (t ≠ m) else decide ((2.5 : ℚ) < |(t - m) / s|)

/-- `statistical_anomaly(df, mean_load, std_load)` (lines 141–145): per-row
z-score and anomaly flag.  The function raises nothing: division by a zero
std propagates as float inf/NaN values. -/
def statistical_anomaly (df : List Row) (m s : ℚ) : List (Option ℚ × Bool) :=
  df.map (fun r => (z_score m s (total_load r), stat_flag m s (total_load r)))

/-- `df[df['Peak_Type'] == pt]['Total_Load'].mean()` (lines 167–168): the mean
of an empty selection is NaN in pandas, modelled as `none`. -/
def group_mean_load (df : List Row) (pt : String) : Option ℚ :=
  let g := df.filter (fun r => peak_type r.hour == pt)
  if g.isEmpty then none else some (meanQ (loads g))

/-- `demand_balancing(df, high_risk)` (lines 166–174): two independent rules.
The shift rule compares `peak > off_peak * 1.15` (a NaN mean makes the
comparison false); the stagger rule tests `len(high_risk) > 4`.  Output is the
ordered list of printed recommendations. -/
def demand_balancing (df : List Row) (high_risk : List (Nat × ℚ)) : List String :=
  let shiftFires :=
    match group_mean_load df "Peak", group_mean_load df "Off-Peak" with
    | some p, some o => decide (o * (1.15 : ℚ) < p)
    | _, _ => false
  (if shiftFires then ["Shift load to off-peak hours"] else []) ++
    (if 4 < high_risk.length then ["Stagger usage during peak hours"] else [])

/-- Outcome of menu choice 7 (lines 215–219): either the balancing advice ran,
or the script printed the warning `Run Peak Load Risk first`. -/
inductive BalancingDispatch where
  | advice (recs : List String)
  | warnRunRiskFirst
deriving DecidableEq, Repr

/-- The `choice == 7` branch of the menu loop (lines 215–219): run
`demand_balancing` only when `high_risk_hours is not None`; otherwise print
the warning. -/
def dispatch_choice7 (df : List Row) (high_risk_hours : Option (List (Nat × ℚ))) :
    BalancingDispatch :=
  match high_risk_hours with
  | some hr => .advice (demand_balancing df hr)
  | none => .warnRunRiskFirst

/-- `high_risk_hours = None` (line 182): the value held before menu choice 4
has run in the session. -/
def fresh_high_risk : Option (List (Nat × ℚ)) := none

/-! ### Concrete frames used by witnesses and counterexamples -/

/-- A 3-row frame with total loads 0, 1, 2 (sample variance 1, std 1). -/
def dfW1 : List Row := [⟨0, 0, 0, 0, 0⟩, ⟨0, 0, 1, 0, 0⟩, ⟨0, 0, 2, 0, 0⟩]

/-- A 7-row frame with constant total load 10. -/
def dfW6 : List Row := List.replicate 7 ⟨0, 0, 10, 0, 0⟩

/-- A frame with four distinct hours whose hourly means are 1, 1, 1 and 3
(sample std of the hourly means is 1). -/
def dfW2 : List Row := [⟨0, 0, 1, 0, 0⟩, ⟨1, 0, 1, 0, 0⟩, ⟨2, 0, 1, 0, 0⟩, ⟨3, 0, 3, 0, 0⟩]

/-- A 1-row frame with zone means 100, 80, 50 (the worked example of the
spec: scores 60.00, 68.00, 80.00). -/
def dfW3 : List Row := [⟨0, 0, 100, 80, 50⟩]

/-- A 1-row frame whose zone readings are all zero (`max_zone = 0`). -/
def dfC9 : List Row := [⟨0, 0, 0, 0, 0⟩]

/-- A 2-row frame with total loads 5 and 7. -/
def dfC7 : List Row := [⟨0, 0, 5, 0, 0⟩, ⟨0, 0, 7, 0, 0⟩]

/-- A 2-row frame with one Peak row (hour 18, load 120) and one Off-Peak row
(hour 3, load 100): the worked example of the spec. -/
def dfW4 : List Row := [⟨18, 0, 120, 0, 0⟩, ⟨3, 0, 100, 0, 0⟩]

/-- A 5-hour high-risk set, as in the worked example of the spec. -/
def hrW4 : List (Nat × ℚ) := [(18, 1), (19, 1), (20, 1), (21, 1), (22, 1)]

/-- A 9-row frame with total loads 0 (eight times) and 9: mean 1, sample
variance 9, std 3; the last row has z-score 8/3 > 2.5 and also exceeds
mean + 2·std = 7. -/
def dfW10 : List Row :=
  [⟨0, 0, 0, 0, 0⟩, ⟨0, 0, 0, 0, 0⟩, ⟨0, 0, 0, 0, 0⟩, ⟨0, 0, 0, 0, 0⟩,
   ⟨0, 0, 0, 0, 0⟩, ⟨0, 0, 0, 0, 0⟩, ⟨0, 0, 0, 0, 0⟩, ⟨0, 0, 0, 0, 0⟩,
   ⟨0, 0, 9, 0, 0⟩]

/-! ### Helper lemmas -/

lemma sum_const_of_forall_eq (l : List ℚ) (c : ℚ) (h : ∀ x ∈ l, x = c) :
    l.sum = l.length * c := by
  induction l with
  | nil => simp
  | cons a t ih =>
    have ha : a = c := h a (List.mem_cons_self a t)
    have ht := ih (fun x hx => h x (List.mem_cons_of_mem a hx))
    simp [ha, ht]
    ring

lemma meanQ_nonneg (xs : List ℚ) (h : ∀ x ∈ xs, 0 ≤ x) : 0 ≤ meanQ xs := by
  unfold meanQ
  exact div_nonneg (List.sum_nonneg h) (by positivity)

lemma rollingMean_length (k : Nat) (xs : List ℚ) :
    (rollingMean k xs).length = xs.length := by
  simp [rollingMean]

lemma rollingMean_getElem (k : Nat) (xs : List ℚ) (i : Nat) (hi : i < xs.length) :
    (rollingMean k xs)[i]? =
      some (if k ≤ i + 1 then some ((((xs.drop (i + 1 - k)).take k).sum) / (k : ℚ))
            else none) := by
  simp [rollingMean, List.getElem?_range hi]

lemma rollingMean_const (k : Nat) (hk : 0 < k) (xs : List ℚ) (c : ℚ)
    (h : ∀ x ∈ xs, x = c) (i : Nat) (v : ℚ)
    (hv : (rollingMean k xs)[i]? = some (some v)) : v = c := by
  have hi : i < xs.length := by
    by_contra hlt
    have hnone : (rollingMean k xs)[i]? = none :=
      List.getElem?_eq_none (by rw [rollingMean_length]; omega)
    rw [hnone] at hv
    exact Option.noConfusion hv
  rw [rollingMean_getElem k xs i hi] at hv
  by_cases hki : k ≤ i + 1
  · rw [if_pos hki] at hv
    have hv2 : (((xs.drop (i + 1 - k)).take k).sum) / (k : ℚ) = v := by
      have := Option.some.inj hv
      exact Option.some.inj this
    have hmem : ∀ x ∈ (xs.drop (i + 1 - k)).take k, x = c := by
      intro x hx
      exact h x (List.mem_of_mem_drop (List.mem_of_mem_take hx))
    have hlen : ((xs.drop (i + 1 - k)).take k).length = k := by
      rw [List.length_take, List.length_drop]
      omega
    have hsum := sum_const_of_forall_eq _ c hmem
    rw [hlen] at hsum
    have hkne : (k : ℚ) ≠ 0 := Nat.cast_ne_zero.mpr hk.ne'
    rw [hsum, mul_comm, mul_div_assoc, div_self hkne, mul_one] at hv2
    exact hv2.symm
  · rw [if_neg hki] at hv
    exact Option.noConfusion (Option.some.inj hv)

lemma wastage_flags_eq (df : List Row) (s : ℚ) :
    (wastage_detection df s).1 =
      df.map (fun r => wastage_flag (mean_load df) s (total_load r)) := rfl

/-! ### Claim theorems -/

/-- C5: `Peak_Type` is `Peak` iff the hour lies in [18, 22] inclusive on both
ends, and `Off-Peak` otherwise; in particular hours 17 and 23 are `Off-Peak`
while 18 and 22 are `Peak`. -/
theorem peak_type_spec :
    (∀ h : Nat, peak_type h = "Peak" ↔ (18 ≤ h ∧ h ≤ 22)) ∧
    peak_type 17 = "Off-Peak" ∧ peak_type 18 = "Peak" ∧
    peak_type 22 = "Peak" ∧ peak_type 23 = "Off-Peak" := by
  refine ⟨fun h => ?_, rfl, rfl, rfl, rfl⟩
  unfold peak_type
  split <;> simp_all

/-- C1: for a frame with at least 2 rows, `wastage_detection` returns the
arithmetic mean and the sample standard deviation (divisor n−1) of
`Total_Load` as its `(mean, std)` pair, flags exactly the rows whose
`Total_Load` strictly exceeds `mean + 2·std`, and the flagged count is at
most the row count. -/
theorem wastage_detection_spec (df : List Row) (s : ℚ)
    (h2 : 2 ≤ df.length) (hs : is_sample_std (loads df) s) :
    (wastage_detection df s).2.2 = (meanQ (loads df), s)
    ∧ meanQ (loads df) = (loads df).sum / (df.length : ℚ)
    ∧ 0 ≤ s ∧ s ^ 2 = sampleVar (loads df)
    ∧ List.Forall₂ (fun (b : Bool) (r : Row) =>
        b = true ↔ mean_load df + 2 * s < total_load r)
      (wastage_detection df s).1 df
    ∧ (wastage_detection df s).2.1 ≤ df.length := by
  obtain ⟨hs0, hs1⟩ := hs
  refine ⟨rfl, by simp [meanQ, loads], hs0, hs1, ?_, ?_⟩
  · rw [wastage_flags_eq, List.forall₂_map_left_iff, List.forall₂_same]
    intro r _
    simp [wastage_flag]
  · have hc : (wastage_detection df s).2.1 =
        (df.map (fun r => wastage_flag (mean_load df) s (total_load r))).count true := rfl
    rw [hc]
    have := List.count_le_length true
      (df.map (fun r => wastage_flag (mean_load df) s (total_load r)))
    simpa using this

/-- Witness for C1 at the concrete frame `dfW1` with std 1. -/
theorem wastage_detection_spec_witness :
    (2 ≤ dfW1.length ∧ is_sample_std (loads dfW1) 1) ∧
    ((wastage_detection dfW1 1).2.2 = (meanQ (loads dfW1), 1)
      ∧ meanQ (loads dfW1) = (loads dfW1).sum / (dfW1.length : ℚ)
      ∧ (0 : ℚ) ≤ 1 ∧ (1 : ℚ) ^ 2 = sampleVar (loads dfW1)
      ∧ List.Forall₂ (fun (b : Bool) (r : Row) =>
          b = true ↔ mean_load dfW1 + 2 * 1 < total_load r)
        (wastage_detection dfW1 1).1 dfW1
      ∧ (wastage_detection dfW1 1).2.1 ≤ dfW1.length) := by
  have hle : 2 ≤ dfW1.length := by norm_num [dfW1]
  have hstd : is_sample_std (loads dfW1) 1 := by
    refine ⟨by norm_num, ?_⟩
    norm_num [sampleVar, meanQ, loads, total_load, dfW1]
  exact ⟨⟨hle, hstd⟩, wastage_detection_spec dfW1 1 hle hstd⟩

/-- C6: `rolling_trend` produces trailing moving averages of `Total_Load` over
windows of 7 and 30 rows inclusive of the current row and using no future
rows; entries at indices 0..5 (resp. 0..28) are undefined (`none`), every
later entry is the mean of the trailing window, and on a constant series
every defined value equals the constant. -/
theorem rolling_trend_spec (df : List Row) :
    (rolling_trend df).1.length = df.length
    ∧ (rolling_trend df).2.length = df.length
    ∧ (∀ i, i < df.length → i < 6 → ((rolling_trend df).1)[i]? = some none)
    ∧ (∀ i, i < df.length → i < 29 → ((rolling_trend df).2)[i]? = some none)
    ∧ (∀ i, 6 ≤ i → i < df.length → ((rolling_trend df).1)[i]? =
        some (some ((((loads df).drop (i - 6)).take 7).sum / (7 : ℚ))))
    ∧ (∀ i, 29 ≤ i → i < df.length → ((rolling_trend df).2)[i]? =
        some (some ((((loads df).drop (i - 29)).take 30).sum / (30 : ℚ))))
    ∧ (∀ c : ℚ, (∀ r ∈ df, total_load r = c) →
        (∀ (i : Nat) (v : ℚ), ((rolling_trend df).1)[i]? = some (some v) → v = c)
        ∧ (∀ (i : Nat) (v : ℚ), ((rolling_trend df).2)[i]? = some (some v) → v = c)) := by
  have hlen : (loads df).length = df.length := by simp [loads]
  have h7 : (rolling_trend df).1 = rollingMean 7 (loads df) := rfl
  have h30 : (rolling_trend df).2 = rollingMean 30 (loads df) := rfl
  refine ⟨by rw [h7, rollingMean_length, hlen], by rw [h30, rollingMean_length, hlen],
    ?_, ?_, ?_, ?_, ?_⟩
  · intro i hilen hi6
    rw [h7, rollingMean_getElem 7 (loads df) i (by omega), if_neg (by omega)]
  · intro i hilen hi29
    rw [h30, rollingMean_getElem 30 (loads df) i (by omega), if_neg (by omega)]
  · intro i hi6 hilen
    rw [h7, rollingMean_getElem 7 (loads df) i (by omega), if_pos (by omega)]
    have : i + 1 - 7 = i - 6 := by omega
    rw [this]
    norm_num
  · intro i hi29 hilen
    rw [h30, rollingMean_getElem 30 (loads df) i (by omega), if_pos (by omega)]
    have : i + 1 - 30 = i - 29 := by omega
    rw [this]
    norm_num
  · intro c hc
    have hc2 : ∀ x ∈ loads df, x = c := by
      intro x hx
      obtain ⟨r, hr, rfl⟩ := List.mem_map.mp hx
      exact hc r hr
    constructor
    · intro i v hv
      rw [h7] at hv
      exact rollingMean_const 7 (by omega) (loads df) c hc2 i v hv
    · intro i v hv
      rw [h30] at hv
      exact rollingMean_const 30 (by omega) (loads df) c hc2 i v hv

/-- Witness for C6 at the constant 7-row frame `dfW6`. -/
theorem rolling_trend_spec_witness :
    (rolling_trend dfW6).1.length = dfW6.length
    ∧ (rolling_trend dfW6).2.length = dfW6.length
    ∧ (∀ i, i < dfW6.length → i < 6 → ((rolling_trend dfW6).1)[i]? = some none)
    ∧ (∀ i, i < dfW6.length → i < 29 → ((rolling_trend dfW6).2)[i]? = some none)
    ∧ (∀ i, 6 ≤ i → i < dfW6.length → ((rolling_trend dfW6).1)[i]? =
        some (some ((((loads dfW6).drop (i - 6)).take 7).sum / (7 : ℚ))))
    ∧ (∀ i, 29 ≤ i → i < dfW6.length → ((rolling_trend dfW6).2)[i]? =
        some (some ((((loads dfW6).drop (i - 29)).take 30).sum / (30 : ℚ))))
    ∧ (∀ c : ℚ, (∀ r ∈ dfW6, total_load r = c) →
        (∀ (i : Nat) (v : ℚ), ((rolling_trend dfW6).1)[i]? = some (some v) → v = c)
        ∧ (∀ (i : Nat) (v : ℚ), ((rolling_trend dfW6).2)[i]? = some (some v) → v = c)) :=
  rolling_trend_spec dfW6

/-- C2: `peak_load_risk` groups rows by hour, takes per-hour means of
`Total_Load`, forms the threshold mean + sample std (divisor n−1) of those
hourly means, and returns exactly the hours whose mean strictly exceeds the
threshold, in ascending hour order. -/
theorem peak_load_risk_spec (df : List Row) (s : ℚ)
    (hh : ∀ r ∈ df, r.hour < 24)
    (h2 : 2 ≤ (hours_of df).length)
    (hs : is_sample_std ((hourly_profile df).map Prod.snd) s) :
    (∀ h : Nat, h ∈ hours_of df ↔ ∃ r ∈ df, r.hour = h)
    ∧ (∀ p : Nat × ℚ, p ∈ peak_load_risk df s ↔
        (p.1 ∈ hours_of df ∧ p.2 = hourly_mean df p.1
          ∧ meanQ ((hourly_profile df).map Prod.snd) + s < p.2))
    ∧ List.Pairwise (fun a b : Nat × ℚ => a.1 < b.1) (peak_load_risk df s) := by
  have hrisk : peak_load_risk df s = (hourly_profile df).filter
      (fun p => decide (meanQ ((hourly_profile df).map Prod.snd) + s < p.2)) := rfl
  refine ⟨?_, ?_, ?_⟩
  · intro h
    simp only [hours_of, List.mem_filter, List.mem_range, List.any_eq_true, beq_iff_eq]
    constructor
    · rintro ⟨_, r, hr, hrh⟩
      exact ⟨r, hr, hrh⟩
    · rintro ⟨r, hr, hrh⟩
      exact ⟨hrh ▸ hh r hr, r, hr, hrh⟩
  · intro p
    rw [hrisk, List.mem_filter]
    have hmem : p ∈ hourly_profile df ↔ (p.1 ∈ hours_of df ∧ p.2 = hourly_mean df p.1) := by
      obtain ⟨ph, pv⟩ := p
      simp only [hourly_profile, List.mem_map]
      constructor
      · rintro ⟨h, hmemh, heq⟩
        rw [Prod.mk.injEq] at heq
        obtain ⟨rfl, rfl⟩ := heq
        exact ⟨hmemh, rfl⟩
      · rintro ⟨h1, rfl⟩
        exact ⟨ph, h1, rfl⟩
    rw [hmem]
    simp [and_assoc]
  · rw [hrisk]
    apply List.Pairwise.filter
    unfold hourly_profile
    rw [List.pairwise_map]
    exact List.Pairwise.filter _ (List.pairwise_lt_range 24)

/-- Witness for C2 at the frame `dfW2` (hourly means 1, 1, 1, 3; threshold
5/2; only hour 3 exceeds it). -/
theorem peak_load_risk_spec_witness :
    ((∀ r ∈ dfW2, r.hour < 24) ∧ 2 ≤ (hours_of dfW2).length
      ∧ is_sample_std ((hourly_profile dfW2).map Prod.snd) 1) ∧
    ((∀ h : Nat, h ∈ hours_of dfW2 ↔ ∃ r ∈ dfW2, r.hour = h)
      ∧ (∀ p : Nat × ℚ, p ∈ peak_load_risk dfW2 1 ↔
          (p.1 ∈ hours_of dfW2 ∧ p.2 = hourly_mean dfW2 p.1
            ∧ meanQ ((hourly_profile dfW2).map Prod.snd) + 1 < p.2))
      ∧ List.Pairwise (fun a b : Nat × ℚ => a.1 < b.1) (peak_load_risk dfW2 1)) := by
  have hprof : hourly_profile dfW2 = [(0, 1), (1, 1), (2, 1), (3, 3)] := by
    have h : hours_of dfW2 = [0, 1, 2, 3] := by decide
    rw [hourly_profile, h]
    norm_num [hourly_mean, meanQ, loads, total_load, dfW2]
  have hh : ∀ r ∈ dfW2, r.hour < 24 := by decide
  have h2 : 2 ≤ (hours_of dfW2).length := by decide
  have hs : is_sample_std ((hourly_profile dfW2).map Prod.snd) 1 := by
    rw [hprof]
    refine ⟨by norm_num, ?_⟩
    norm_num [sampleVar, meanQ]
  exact ⟨⟨hh, h2, hs⟩, peak_load_risk_spec dfW2 1 hh h2 hs⟩

/-- C3: when the zone readings are non-negative and the three zone means are
not all zero, `zone_efficiency` scores each zone as
`round(100 − (zone_mean/max_zone_mean)·40, 2)`, reported in the fixed order
Zone1, Zone2, Zone3, and any zone whose mean equals the maximum scores
exactly 60. -/
theorem zone_efficiency_spec (df : List Row)
    (hnn : ∀ r ∈ df, 0 ≤ r.zone1 ∧ 0 ≤ r.zone2 ∧ 0 ≤ r.zone3)
    (hnz : ¬(zone_avg1 df = 0 ∧ zone_avg2 df = 0 ∧ zone_avg3 df = 0)) :
    zone_efficiency df =
      [("Zone1", some (round2 (100 - zone_avg1 df / max_zone df * 40))),
       ("Zone2", some (round2 (100 - zone_avg2 df / max_zone df * 40))),
       ("Zone3", some (round2 (100 - zone_avg3 df / max_zone df * 40)))]
    ∧ (zone_avg1 df = max_zone df → round2 (100 - zone_avg1 df / max_zone df * 40) = 60)
    ∧ (zone_avg2 df = max_zone df → round2 (100 - zone_avg2 df / max_zone df * 40) = 60)
    ∧ (zone_avg3 df = max_zone df → round2 (100 - zone_avg3 df / max_zone df * 40) = 60) := by
  have h1 : 0 ≤ zone_avg1 df := by
    refine meanQ_nonneg _ ?_
    intro x hx
    obtain ⟨r, hr, rfl⟩ := List.mem_map.mp hx
    exact (hnn r hr).1
  have h2 : 0 ≤ zone_avg2 df := by
    refine meanQ_nonneg _ ?_
    intro x hx
    obtain ⟨r, hr, rfl⟩ := List.mem_map.mp hx
    exact (hnn r hr).2.1
  have h3 : 0 ≤ zone_avg3 df := by
    refine meanQ_nonneg _ ?_
    intro x hx
    obtain ⟨r, hr, rfl⟩ := List.mem_map.mp hx
    exact (hnn r hr).2.2
  have hmaxne : max_zone df ≠ 0 := by
    intro h0
    apply hnz
    unfold max_zone at h0
    refine ⟨le_antisymm ?_ h1, le_antisymm ?_ h2, le_antisymm ?_ h3⟩
    · rw [← h0]; exact le_max_left _ _
    · rw [← h0]; exact le_trans (le_max_left _ _) (le_max_right _ _)
    · rw [← h0]; exact le_trans (le_max_right _ _) (le_max_right _ _)
  refine ⟨?_, ?_, ?_, ?_⟩
  · simp only [zone_efficiency, if_neg hmaxne]
  all_goals
    intro heq
    rw [heq, div_self hmaxne]
    norm_num [round2, roundHalfToEven]

/-- Witness for C3 at `dfW3` (zone means 100, 80, 50). -/
theorem zone_efficiency_spec_witness :
    ((∀ r ∈ dfW3, 0 ≤ r.zone1 ∧ 0 ≤ r.zone2 ∧ 0 ≤ r.zone3)
      ∧ ¬(zone_avg1 dfW3 = 0 ∧ zone_avg2 dfW3 = 0 ∧ zone_avg3 dfW3 = 0)) ∧
    (zone_efficiency dfW3 =
      [("Zone1", some (round2 (100 - zone_avg1 dfW3 / max_zone dfW3 * 40))),
       ("Zone2", some (round2 (100 - zone_avg2 dfW3 / max_zone dfW3 * 40))),
       ("Zone3", some (round2 (100 - zone_avg3 dfW3 / max_zone dfW3 * 40)))]
      ∧ (zone_avg1 dfW3 = max_zone dfW3 →
          round2 (100 - zone_avg1 dfW3 / max_zone dfW3 * 40) = 60)
      ∧ (zone_avg2 dfW3 = max_zone dfW3 →
          round2 (100 - zone_avg2 dfW3 / max_zone dfW3 * 40) = 60)
      ∧ (zone_avg3 dfW3 = max_zone dfW3 →
          round2 (100 - zone_avg3 dfW3 / max_zone dfW3 * 40) = 60)) := by
  have hnn : ∀ r ∈ dfW3, 0 ≤ r.zone1 ∧ 0 ≤ r.zone2 ∧ 0 ≤ r.zone3 := by
    intro r hr
    simp only [dfW3, List.mem_singleton] at hr
    subst hr
    norm_num
  have hnz : ¬(zone_avg1 dfW3 = 0 ∧ zone_avg2 dfW3 = 0 ∧ zone_avg3 dfW3 = 0) := by
    intro hz
    have := hz.1
    rw [zone_avg1] at this
    norm_num [meanQ, dfW3] at this
  exact ⟨⟨hnn, hnz⟩, zone_efficiency_spec dfW3 hnn hnz⟩

/-- C9 counterexample: at the all-zero frame `dfC9`, `zone_efficiency` does
not fail — the zero maximum propagates through the division as NaN
(undefined) scores for every zone; no `DegenerateInputError` is raised
(the source defines no such error). -/
theorem zone_efficiency_all_zero_cex :
    zone_efficiency dfC9 = [("Zone1", none), ("Zone2", none), ("Zone3", none)] := by
  norm_num [zone_efficiency, max_zone, zone_avg1, zone_avg2, zone_avg3, meanQ, dfC9]

/-- C9 amended: on a frame whose zone readings are all zero, `zone_efficiency`
returns undefined (NaN) scores for the three zones in fixed order instead of
raising an error. -/
theorem zone_efficiency_all_zero (df : List Row)
    (h : ∀ r ∈ df, r.zone1 = 0 ∧ r.zone2 = 0 ∧ r.zone3 = 0) :
    zone_efficiency df = [("Zone1", none), ("Zone2", none), ("Zone3", none)] := by
  have h1 : zone_avg1 df = 0 := by
    unfold zone_avg1 meanQ
    rw [sum_const_of_forall_eq _ 0 (by
      intro x hx
      obtain ⟨r, hr, rfl⟩ := List.mem_map.mp hx
      exact (h r hr).1)]
    simp
  have h2 : zone_avg2 df = 0 := by
    unfold zone_avg2 meanQ
    rw [sum_const_of_forall_eq _ 0 (by
      intro x hx
      obtain ⟨r, hr, rfl⟩ := List.mem_map.mp hx
      exact (h r hr).2.1)]
    simp
  have h3 : zone_avg3 df = 0 := by
    unfold zone_avg3 meanQ
    rw [sum_const_of_forall_eq _ 0 (by
      intro x hx
      obtain ⟨r, hr, rfl⟩ := List.mem_map.mp hx
      exact (h r hr).2.2)]
    simp
  simp [zone_efficiency, max_zone, h1, h2, h3]

/-- Witness for the amended C9 at `dfC9`. -/
theorem zone_efficiency_all_zero_witness :
    (∀ r ∈ dfC9, r.zone1 = 0 ∧ r.zone2 = 0 ∧ r.zone3 = 0) ∧
    zone_efficiency dfC9 = [("Zone1", none), ("Zone2", none), ("Zone3", none)] := by
  have h : ∀ r ∈ dfC9, r.zone1 = 0 ∧ r.zone2 = 0 ∧ r.zone3 = 0 := by
    intro r hr
    simp only [dfC9, List.mem_singleton] at hr
    subst hr
    norm_num
  exact ⟨h, zone_efficiency_all_zero dfC9 h⟩

/-- C7 counterexample: with std exactly 0, `statistical_anomaly` does not
fail — at the concrete frame `dfC7` with mean 6 and std 0 it returns per-row
results: the z-scores are undefined (float ±inf) and the flags are computed
from the float comparison, with no `DivisionByZeroError` (the source defines
no such error). -/
theorem statistical_anomaly_std_zero_cex :
    statistical_anomaly dfC7 6 0 = [(none, true), (none, true)] := by
  norm_num [statistical_anomaly, dfC7, z_score, stat_flag, total_load]

/-- C7 amended: for std ≠ 0, `statistical_anomaly` computes
`z = (Total_Load − mean)/std` per row and flags `|z| > 2.5`; for std = 0 it
does not fail: the float division yields ±inf (or NaN when the load equals
the mean), so the z-score is undefined and the flag holds exactly when the
load differs from the mean. -/
theorem statistical_anomaly_spec (df : List Row) (m s : ℚ) :
    (s ≠ 0 → List.Forall₂ (fun (out : Option ℚ × Bool) (r : Row) =>
        out.1 = some ((total_load r - m) / s)
          ∧ (out.2 = true ↔ (2.5 : ℚ) < |(total_load r - m) / s|))
      (statistical_anomaly df m s) df)
    ∧ (s = 0 → List.Forall₂ (fun (out : Option ℚ × Bool) (r : Row) =>
        out.1 = none ∧ (out.2 = true ↔ total_load r ≠ m))
      (statistical_anomaly df m s) df) := by
  constructor
  · intro hs
    unfold statistical_anomaly
    rw [List.forall₂_map_left_iff, List.forall₂_same]
    intro r _
    simp [z_score, stat_flag, hs]
  · intro hs
    subst hs
    unfold statistical_anomaly
    rw [List.forall₂_map_left_iff, List.forall₂_same]
    intro r _
    simp [z_score, stat_flag]

/-- Witness for the amended C7 at `dfC7` with mean 6 and std 0. -/
theorem statistical_anomaly_spec_witness :
    ((0 : ℚ) ≠ 0 → List.Forall₂ (fun (out : Option ℚ × Bool) (r : Row) =>
        out.1 = some ((total_load r - 6) / 0)
          ∧ (out.2 = true ↔ (2.5 : ℚ) < |(total_load r - 6) / 0|))
      (statistical_anomaly dfC7 6 0) dfC7)
    ∧ ((0 : ℚ) = 0 → List.Forall₂ (fun (out : Option ℚ × Bool) (r : Row) =>
        out.1 = none ∧ (out.2 = true ↔ total_load r ≠ 6))
      (statistical_anomaly dfC7 6 0) dfC7) :=
  statistical_anomaly_spec dfC7 6 0

/-- C4: `demand_balancing` evaluates its two rules independently — the shift
recommendation fires iff mean(Peak) > mean(Off-Peak)·1.15 and the stagger
recommendation fires iff the high-risk set has more than 4 hours — and when
both fire they appear in that fixed order (shift first). -/
theorem demand_balancing_spec (df : List Row) (hr : List (Nat × ℚ)) (p o : ℚ)
    (hp : group_mean_load df "Peak" = some p)
    (ho : group_mean_load df "Off-Peak" = some o) :
    demand_balancing df hr =
      (if o * (1.15 : ℚ) < p then ["Shift load to off-peak hours"] else [])
        ++ (if 4 < hr.length then ["Stagger usage during peak hours"] else [])
    ∧ ("Shift load to off-peak hours" ∈ demand_balancing df hr ↔ o * (1.15 : ℚ) < p)
    ∧ ("Stagger usage during peak hours" ∈ demand_balancing df hr ↔ 4 < hr.length) := by
  have hd : demand_balancing df hr =
      (if o * (1.15 : ℚ) < p then ["Shift load to off-peak hours"] else [])
        ++ (if 4 < hr.length then ["Stagger usage during peak hours"] else []) := by
    simp only [demand_balancing, hp, ho]
    by_cases hc : o * (1.15 : ℚ) < p <;> simp [hc]
  refine ⟨hd, ?_, ?_⟩ <;>
    by_cases hc : o * (1.15 : ℚ) < p <;> by_cases hl : 4 < hr.length <;>
      simp [hd, hc, hl]

/-- Witness for C4 at the spec's worked example: Peak mean 120, Off-Peak mean
100 (120 > 115, so the shift rule fires) and a 5-hour high-risk set (the
stagger rule fires); both recommendations appear in order. -/
theorem demand_balancing_spec_witness :
    (group_mean_load dfW4 "Peak" = some 120 ∧ group_mean_load dfW4 "Off-Peak" = some 100) ∧
    (demand_balancing dfW4 hrW4 =
      (if (100 : ℚ) * (1.15 : ℚ) < 120 then ["Shift load to off-peak hours"] else [])
        ++ (if 4 < hrW4.length then ["Stagger usage during peak hours"] else [])
      ∧ ("Shift load to off-peak hours" ∈ demand_balancing dfW4 hrW4 ↔
          (100 : ℚ) * (1.15 : ℚ) < 120)
      ∧ ("Stagger usage during peak hours" ∈ demand_balancing dfW4 hrW4 ↔
          4 < hrW4.length)) := by
  have hp : group_mean_load dfW4 "Peak" = some 120 := by
    simp [group_mean_load, dfW4, peak_type, loads, meanQ, total_load]
  have ho : group_mean_load dfW4 "Off-Peak" = some 100 := by
    simp [group_mean_load, dfW4, peak_type, loads, meanQ, total_load]
  exact ⟨⟨hp, ho⟩, demand_balancing_spec dfW4 hrW4 120 100 hp ho⟩

/-- C8 counterexample: in a fresh session (`high_risk_hours = None`, set at
line 182), menu choice 7 prints the warning `Run Peak Load Risk first`
rather than raising a `PrecomputationRequiredError` (the source defines no
such exception) and produces no recommendation list. -/
theorem dispatch_choice7_fresh_cex :
    dispatch_choice7 dfW1 fresh_high_risk = BalancingDispatch.warnRunRiskFirst := rfl

/-- C8 amended: invoking menu choice 7 before choice 4 has run leaves
`high_risk_hours` as `None`, so the dispatcher prints the warning
`Run Peak Load Risk first` and does not invoke `demand_balancing`; once a
high-risk set exists, choice 7 runs the advisor on it. -/
theorem dispatch_choice7_fresh (df : List Row) :
    dispatch_choice7 df fresh_high_risk = BalancingDispatch.warnRunRiskFirst
    ∧ ∀ hr, dispatch_choice7 df (some hr) =
        BalancingDispatch.advice (demand_balancing df hr) :=
  ⟨rfl, fun _ => rfl⟩

/-- C10: row by row, a statistical-anomaly flag with a positive z-score
(z > 2.5, i.e. load > mean + 2.5·std) implies the wastage flag
(load > mean + 2·std) when both detectors use the same (mean, std) pair with
std > 0. -/
theorem stat_implies_wastage (df : List Row) (s : ℚ)
    (hs : is_sample_std (loads df) s) (hspos : 0 < s) :
    List.Forall₂ (fun (out : Option ℚ × Bool) (b : Bool) =>
        out.2 = true → ∀ z : ℚ, out.1 = some z → 0 < z → b = true)
      (statistical_anomaly df (mean_load df) s) (wastage_detection df s).1 := by
  rw [wastage_flags_eq]
  unfold statistical_anomaly
  rw [List.forall₂_map_left_iff, List.forall₂_map_right_iff, List.forall₂_same]
  intro r _
  intro hflag z hz hzpos
  have hsne : s ≠ 0 := ne_of_gt hspos
  rw [z_score, if_neg hsne] at hz
  have hz2 : (total_load r - mean_load df) / s = z := Option.some.inj hz
  rw [stat_flag, if_neg hsne] at hflag
  have habs : (2.5 : ℚ) < |(total_load r - mean_load df) / s| := of_decide_eq_true hflag
  rw [hz2, abs_of_pos hzpos] at habs
  simp only [wastage_flag, decide_eq_true_eq]
  have h2 : total_load r - mean_load df = z * s := (div_eq_iff hsne).mp hz2
  have key : (2.5 : ℚ) * s < z * s := mul_lt_mul_of_pos_right habs hspos
  linarith

/-- Witness for C10 at `dfW10` (mean 1, std 3; the outlier row has z-score
8/3 > 2.5 and load 9 > 1 + 2·3). -/
theorem stat_implies_wastage_witness :
    (is_sample_std (loads dfW10) 3 ∧ (0 : ℚ) < 3) ∧
    List.Forall₂ (fun (out : Option ℚ × Bool) (b : Bool) =>
        out.2 = true → ∀ z : ℚ, out.1 = some z → 0 < z → b = true)
      (statistical_anomaly dfW10 (mean_load dfW10) 3) (wastage_detection dfW10 3).1 := by
  have h1 : is_sample_std (loads dfW10) 3 := by
    refine ⟨by norm_num, ?_⟩
    norm_num [sampleVar, meanQ, loads, total_load, dfW10]
  exact ⟨⟨h1, by norm_num⟩, stat_implies_wastage dfW10 3 h1 (by norm_num)⟩

end PowerConsumption
